import Mathlib

/-!
Verification development for `discord_stocks.py`, a single-file stock-chart
program consisting of a command-string parser (`parse_query`), an HTTP data
fetcher (`request_data`) and a chart renderer (`create_chart`).

The parser is embedded directly: the Python string operations it uses
(`strip`, `split(' ')`, `upper`, `int(...)`) are translated to executable
Lean functions on character lists, and the two kinds of runtime failure the
parser can produce (`TypeError` with one of five fixed messages, and
`IndexError` from out-of-range list indexing) are made explicit in an error
type.

The fetcher and renderer call external libraries (`requests`, `pandas`,
`mplfinance`); their own control flow (the 404 branch, the moving-average
label loop) is embedded with the external pieces (HTTP response, CSV
parser, plotted line objects) passed in as parameters.
-/

deriving instance DecidableEq for Except

namespace DiscordStocks

/-- Characters Python `str.strip()` and `int(...)` treat as surrounding
whitespace (the ASCII ones: space, tab, newline, carriage return, vertical
tab, form feed). -/
def pyIsSpace (c : Char) : Bool :=
  c = ' ' || c = '\t' || c = '\n' || c = '\r' || c = '\x0b' || c = '\x0c'

/-- Python `str.strip()`: drop whitespace from both ends. -/
def py_strip (cs : List Char) : List Char :=
  ((cs.dropWhile pyIsSpace).reverse.dropWhile pyIsSpace).reverse

/-- Python `str.split(' ')`: split on every single space character.
Consecutive spaces yield empty tokens; the empty string yields one empty
token; no other whitespace splits. -/
def py_split_sp : List Char → List (List Char)
  | [] => [[]]
  | ' ' :: rest => [] :: py_split_sp rest
  | c :: rest =>
    match py_split_sp rest with
    | t :: ts => (c :: t) :: ts
    | [] => [[c]]

/-- Python `str.upper()` restricted to basic latin letters, as in
`Char.toUpper`. -/
def py_upper (s : String) : String :=
  String.mk (s.toList.map Char.toUpper)

/-- The fixed range enumeration of `parse_query` (line 11 of the source). -/
def valid_ranges : List String :=
  ["1d", "5d", "1mo", "3mo", "6mo", "1y", "2y", "5y", "10y", "ytd", "max"]

/-- The fixed interval enumeration of `parse_query` (line 12 of the source). -/
def valid_intervals : List String :=
  ["1m", "2m", "5m", "15m", "30m", "60m", "90m", "1h", "1d", "5d", "1wk", "1mo", "3mo"]

/-- The fixed chart-type enumeration of `parse_query` (line 13 of the source). -/
def valid_types : List String :=
  ["candle", "line"]

/-- The five distinct `TypeError` messages `parse_query` can raise, by content. -/
inductive ErrMsg where
  | usageMsg
  | rangeMsg
  | intervalMsg
  | typeMsg
  | mavMsg
deriving Repr, DecidableEq

/-- A failure of `parse_query`: a `TypeError` with one of the five fixed
messages (the spec groups these as `InvalidCommand`), or an `IndexError`
from indexing the token list out of range. -/
inductive ParseError where
  | invalidCommand (msg : ErrMsg)
  | indexError
deriving Repr, DecidableEq

/-- The dictionary returned by `parse_query` (lines 39-45 of the source). -/
structure ChartRequest where
  ticker : String
  range : String
  interval : String
  type : String
  mav : List Int
deriving Repr, DecidableEq

/-- Digit run of a Python integer literal after the first digit: decimal
digits with single underscores allowed between digits, as accepted by
Python `int(...)`. Accumulates the value. -/
def pyDigitsAux : List Char → Nat → Option Nat
  | [], acc => some acc
  | '_' :: c :: cs, acc =>
    if c.isDigit then pyDigitsAux cs (acc * 10 + (c.toNat - 48)) else none
  | c :: cs, acc =>
    if c.isDigit then pyDigitsAux cs (acc * 10 + (c.toNat - 48)) else none

/-- Digit run of a Python integer literal: the first character must be a
digit, then `pyDigitsAux` allows underscores between digits. -/
def pyDigits : List Char → Option Nat
  | [] => none
  | c :: cs => if c.isDigit then pyDigitsAux cs (c.toNat - 48) else none

/-- Python `int(s)` on a string: surrounding whitespace stripped, optional
single sign, then a digit run. Returns `none` where Python raises
`ValueError`. -/
def pyInt (s : String) : Option Int :=
  match py_strip s.toList with
  | '+' :: rest => (pyDigits rest).map Int.ofNat
  | '-' :: rest => (pyDigits rest).map fun n => -(Int.ofNat n)
  | cs => (pyDigits cs).map Int.ofNat

/-- The integer conversion `parse_query` applies to the trailing tokens
(lines 32-37 and 44): every token must convert, else the whole list is
rejected. -/
def parseMavs : List String → Option (List Int)
  | [] => some []
  | s :: ss =>
    match pyInt s, parseMavs ss with
    | some n, some ns => some (n :: ns)
    | _, _ => none

/-- `query_str.strip().split(' ')` (line 19 of the source). -/
def query_tokens (query_str : String) : List String :=
  (py_split_sp (py_strip query_str.toList)).map String.mk

/-- Embedding of `parse_query` (lines 7-45 of the source). Checks are in
source order: sentinel, range, interval, type, moving-average integers.
Indexing `query_tokens[k]` on a too-short list raises `IndexError`, made
explicit here by a length test before each access that could be out of
range. -/
def parse_query (query_str : String) : Except ParseError ChartRequest :=
  let ts := query_tokens query_str
  if ts.getD 0 "" ≠ "&stock" then
    .error (.invalidCommand .usageMsg)
  else if ts.length ≤ 2 then
    .error .indexError
  else if ts.getD 2 "" ∉ valid_ranges then
    .error (.invalidCommand .rangeMsg)
  else if ts.length ≤ 3 then
    .error .indexError
  else if ts.getD 3 "" ∉ valid_intervals then
    .error (.invalidCommand .intervalMsg)
  else if ts.length ≤ 4 then
    .error .indexError
  else if ts.getD 4 "" ∉ valid_types then
    .error (.invalidCommand .typeMsg)
  else
    match parseMavs (ts.drop 5) with
    | none => .error (.invalidCommand .mavMsg)
    | some mavs =>
      .ok {
        ticker := py_upper (ts.getD 1 "")
        range := ts.getD 2 ""
        interval := ts.getD 3 ""
        type := ts.getD 4 ""
        mav := mavs
      }

/-- The part of an HTTP response `request_data` inspects: the status code
and the body text. The body type is abstract (the transport is external). -/
structure HttpResponse (β : Type) where
  status_code : Nat
  text : β

/-- Outcome of `request_data`: the 404 failure (the spec's
`DataUnavailable`), a body-parse failure propagated from `pd.read_csv`
(the spec's `FetchError`), or a dataframe. -/
inductive FetchResult (δ : Type) where
  | dataUnavailable
  | fetchError
  | ok (df : δ)
deriving DecidableEq

/-- Embedding of `request_data` (lines 47-70 of the source) given the
already-received response and the external CSV parser `read_csv`
(`pd.read_csv`, whose failures are `none`): a 404 status fails before the
body is parsed; any other status hands the body to the CSV parser, whose
failure propagates. -/
def request_data (resp : HttpResponse β) (read_csv : β → Option δ) : FetchResult δ :=
  if resp.status_code = 404 then
    .dataUnavailable
  else
    match read_csv resp.text with
    | none => .fetchError
    | some df => .ok df

/-- Outcome of the top-level script (lines 138-142 of the source): the
first failing stage terminates the run. -/
inductive RunResult (γ : Type) where
  | parseFailed (e : ParseError)
  | dataUnavailable
  | fetchError
  | rendered (chart : γ)
deriving DecidableEq

/-- Embedding of the top-level script (lines 138-142 of the source):
`parse_query`, then `request_data`, then the render step; `render` stands
for `create_chart` applied to the fetched dataframe and the parsed
tokens. An error raised by an earlier stage terminates the run before the
later stages. -/
def run_script (input_str : String) (resp : HttpResponse β)
    (read_csv : β → Option δ) (render : δ → ChartRequest → γ) : RunResult γ :=
  match parse_query input_str with
  | .error e => .parseFailed e
  | .ok tokens =>
    match request_data resp read_csv with
    | .dataUnavailable => .dataUnavailable
    | .fetchError => .fetchError
    | .ok df => .rendered (render df tokens)

/-- The moving-average line palette passed to `mpf.make_mpf_style`
(line 94 of the source). -/
def mavcolors : List String :=
  ["#5662f6", "#FFEB00", "#FF7A00", "#AEF35A", "#028910"]

/-- A matplotlib line object as the label loop of `create_chart` sees it:
only its y-data is read (`get_ydata()`). Values are abstract (floats in
the source). -/
structure MavLine (α : Type) where
  ydata : List α
deriving DecidableEq

/-- One `ax.text(...)` call made by the label loop of `create_chart`
(lines 128-130 of the source): the loop index, the text position in
hundredths of the axes coordinates, the window length and latest value
displayed as `MA<window>: <value>`, and the color. -/
structure MALabel (α : Type) where
  idx : Nat
  x_hundredths : Int
  y_hundredths : Int
  window : Int
  value : α
  color : String
deriving DecidableEq

/-- The label the loop body of `create_chart` emits at index `i` for
window `w` and latest y-value `v`: position `(0.02, 0.94 - 0.04*i)`
(stored in hundredths), color `mavcolors[i % len(mavcolors)]`. -/
def mk_ma_label (i : Nat) (w : Int) (v : α) : MALabel α :=
  { idx := i, x_hundredths := 2, y_hundredths := 94 - 4 * (i : Int), window := w,
    value := v, color := mavcolors.getD (i % mavcolors.length) "" }

/-- The failure the label loop can raise: a Python `IndexError`, from
`tokens['mav'][i]` when the axis has more lines than windows, or from
`get_ydata()[-1]` on an empty line. -/
inductive ChartError where
  | indexError
deriving DecidableEq

/-- The body of the label loop of `create_chart` (lines 122-130 of the
source), iterating over the remaining line objects with `i` the enumerate
index and `total` the total number of lines on the axis: a line chart's
last line (the price line) is skipped; otherwise a label is emitted from
`mav[i]` and the line's latest y-value, either indexing raising
`IndexError` if out of range. -/
def ma_label_loop (ty : String) (mav : List Int) (total : Nat) :
    List (MavLine α) → Nat → Except ChartError (List (MALabel α))
  | [], _ => .ok []
  | l :: ls, i =>
    if ty = "line" ∧ i = total - 1 then
      ma_label_loop ty mav total ls (i + 1)
    else
      match mav[i]?, l.ydata.getLast? with
      | some w, some v =>
        match ma_label_loop ty mav total ls (i + 1) with
        | .ok rest => .ok (mk_ma_label i w v :: rest)
        | .error e => .error e
      | _, _ => .error .indexError

/-- The moving-average annotation part of `create_chart` (lines 121-130 of
the source): when the request has no moving averages the loop is not
entered at all; otherwise the loop runs over the line objects `lines` of
the price axis. -/
def create_chart_labels (tokens : ChartRequest) (lines : List (MavLine α)) :
    Except ChartError (List (MALabel α)) :=
  if tokens.mav.isEmpty then
    .ok []
  else
    ma_label_loop tokens.type tokens.mav lines.length lines 0

/-- Reference construction following the spec's description of the
moving-average annotations: one label per moving-average window, aligned
by index with the window list and with the latest values of the
corresponding lines, colored from the palette cyclically by index. -/
def spec_labels : List Int → List α → Nat → List (MALabel α)
  | w :: ws, v :: vs, i => mk_ma_label i w v :: spec_labels ws vs (i + 1)
  | _, _, _ => []

theorem spec_labels_length (ws : List Int) (vs : List α) (i : Nat) :
    (spec_labels ws vs i).length = min ws.length vs.length := by
  induction ws generalizing vs i with
  | nil => simp [spec_labels]
  | cons w ws ih =>
    cases vs with
    | nil => simp [spec_labels]
    | cons v vs => simp [spec_labels, ih, Nat.succ_min_succ]

theorem parseMavs_eq_none_iff (l : List String) :
    parseMavs l = none ↔ ∃ t ∈ l, pyInt t = none := by
  induction l with
  | nil => simp [parseMavs]
  | cons s ss ih =>
    simp only [parseMavs]
    cases hs : pyInt s <;> cases hss : parseMavs ss <;> simp_all

theorem parseMavs_eq_some_of_all (l : List String)
    (h : ∀ t ∈ l, (pyInt t).isSome) :
    parseMavs l = some (l.filterMap fun t => pyInt t) := by
  induction l with
  | nil => simp [parseMavs]
  | cons s ss ih =>
    obtain ⟨n, hn⟩ := Option.isSome_iff_exists.mp (h s (by simp))
    rw [parseMavs, hn, ih fun t ht => h t (by simp [ht])]
    simp [hn]

theorem isLower_iff_toNat (d : Char) : d.isLower = true ↔ (97 ≤ d.toNat ∧ d.toNat ≤ 122) := by
  simp [Char.isLower, Char.toNat, UInt32.le_def, BitVec.le_def, UInt32.toNat]

theorem toNat_char_ofNat (m : Nat) (h : m < 55296) : (Char.ofNat m).toNat = m := by
  simp [Char.ofNat, Nat.isValidChar, h, Char.ofNatAux, Char.toNat, UInt32.toNat]

theorem toUpper_not_lower (c : Char) : (c.toUpper).isLower = false := by
  rw [Bool.eq_false_iff]
  intro hlow
  rw [isLower_iff_toNat] at hlow
  unfold Char.toUpper at hlow
  by_cases h : c.toNat ≥ 97 ∧ c.toNat ≤ 122
  · rw [if_pos h, toNat_char_ofNat _ (by omega)] at hlow
    omega
  · rw [if_neg h] at hlow
    exact h ⟨hlow.1, hlow.2⟩

theorem py_upper_no_lower (s : String) :
    ∀ c ∈ (py_upper s).toList, c.isLower = false := by
  intro c hc
  have : c ∈ s.toList.map Char.toUpper := hc
  obtain ⟨d, _, hd⟩ := List.mem_map.mp this
  exact hd ▸ toUpper_not_lower d

/-- C1: parsing `"&stock spy 2y 1wk candle 5 10 20"` succeeds with ticker
`"SPY"` (upper-cased), range `"2y"`, interval `"1wk"`, type `"candle"` and
moving averages `(5, 10, 20)` in order, the non-ticker tokens preserved
verbatim. -/
theorem C1_roundtrip_example_parse :
    parse_query "&stock spy 2y 1wk candle 5 10 20" =
      .ok ⟨"SPY", "2y", "1wk", "candle", [5, 10, 20]⟩ := by
  decide

/-- C8: a request whose moving-average list is empty produces no labels,
whatever line objects are on the axis: the label loop is never entered. -/
theorem C8_empty_mav_no_labels (α : Type) (req : ChartRequest)
    (lines : List (MavLine α)) (h : req.mav = []) :
    create_chart_labels req lines = .ok [] := by
  simp [create_chart_labels, h]

/-- Witness for C8 at the spec's example command `"&stock AAPL 1y 1d line"`:
its parse has an empty moving-average list, and the renderer emits no
labels on a concrete axis. -/
theorem C8_empty_mav_no_labels_witness :
    parse_query "&stock AAPL 1y 1d line" = .ok ⟨"AAPL", "1y", "1d", "line", []⟩ ∧
      create_chart_labels (α := Int) ⟨"AAPL", "1y", "1d", "line", []⟩ [⟨[1, 2]⟩, ⟨[3]⟩] = .ok [] :=
  ⟨by decide, C8_empty_mav_no_labels Int ⟨"AAPL", "1y", "1d", "line", []⟩ [⟨[1, 2]⟩, ⟨[3]⟩] rfl⟩

/-- C7: a 404 response fails as `DataUnavailable` without the body parser
being consulted (the result is the same for any two CSV parsers) and
without any render attempt (the script result is the same for any two
render functions); for any other status the body is handed to the CSV
parser and a parse failure propagates as `FetchError`. -/
theorem C7_not_found_no_parse_no_render (β δ γ : Type) (resp : HttpResponse β)
    (p q : β → Option δ) (render render2 : δ → ChartRequest → γ) (cmd : String) :
    (resp.status_code = 404 →
      request_data resp p = .dataUnavailable ∧
        request_data resp p = request_data resp q ∧
        run_script cmd resp p render = run_script cmd resp q render2) ∧
    (resp.status_code ≠ 404 →
      (p resp.text = none → request_data resp p = .fetchError) ∧
        ∀ df, p resp.text = some df → request_data resp p = .ok df) := by
  constructor
  · intro h404
    have hp : request_data resp p = .dataUnavailable := by
      simp [request_data, h404]
    have hq : request_data resp q = .dataUnavailable := by
      simp [request_data, h404]
    refine ⟨hp, hp.trans hq.symm, ?_⟩
    unfold run_script
    cases parse_query cmd with
    | error e => rfl
    | ok tokens => rw [hp, hq]
  · intro h404
    constructor
    · intro hp
      simp [request_data, h404, hp]
    · intro df hp
      simp [request_data, h404, hp]

/-- Witness for C7: a concrete 404 response is `DataUnavailable` under a
parser that would succeed, the script does not render, and a concrete 200
response with an unparseable body is `FetchError`. -/
theorem C7_not_found_no_parse_no_render_witness :
    request_data (⟨404, 0⟩ : HttpResponse Nat) (fun _ => some 7) = .dataUnavailable ∧
      run_script "&stock AAPL 1y 1d line" (⟨404, 0⟩ : HttpResponse Nat) (fun _ => some 7)
          (fun (_ : Nat) (_ : ChartRequest) => true) =
        run_script "&stock AAPL 1y 1d line" (⟨404, 0⟩ : HttpResponse Nat)
          (fun _ => (none : Option Nat)) (fun (_ : Nat) (_ : ChartRequest) => false) ∧
      request_data (⟨200, 0⟩ : HttpResponse Nat) (fun _ => (none : Option Nat)) = .fetchError :=
  ⟨((C7_not_found_no_parse_no_render Nat Nat Bool ⟨404, 0⟩ (fun _ => some 7)
      (fun _ => (none : Option Nat)) (fun _ _ => true) (fun _ _ => false)
      "&stock AAPL 1y 1d line").1 rfl).1,
   ((C7_not_found_no_parse_no_render Nat Nat Bool ⟨404, 0⟩ (fun _ => some 7)
      (fun _ => (none : Option Nat)) (fun _ _ => true) (fun _ _ => false)
      "&stock AAPL 1y 1d line").1 rfl).2.2,
   ((C7_not_found_no_parse_no_render Nat Nat Bool ⟨200, 0⟩ (fun _ => (none : Option Nat))
      (fun _ => (none : Option Nat)) (fun _ _ => true) (fun _ _ => false)
      "&stock AAPL 1y 1d line").2 (by decide)).1 rfl⟩

/-- C2: with a valid sentinel and a range token present but outside the
fixed enumeration, parsing fails with the valid-ranges message — the range
check comes before the interval and type checks, so their tokens are never
consulted. -/
theorem C2_invalid_range_reported_first (q : String)
    (h0 : (query_tokens q).getD 0 "" = "&stock")
    (hlen : 3 ≤ (query_tokens q).length)
    (hr : (query_tokens q).getD 2 "" ∉ valid_ranges) :
    parse_query q = .error (.invalidCommand .rangeMsg) := by
  simp only [parse_query]
  rw [if_neg (not_not_intro h0), if_neg (by omega), if_pos hr]

/-- Witness for C2: a command whose interval and type tokens are also
invalid still gets the valid-ranges message. -/
theorem C2_invalid_range_reported_first_witness :
    ("xx" ∉ valid_intervals ∧ "yy" ∉ valid_types) ∧
      parse_query "&stock aapl 9z xx yy" = .error (.invalidCommand .rangeMsg) :=
  ⟨by decide,
   C2_invalid_range_reported_first "&stock aapl 9z xx yy" (by decide) (by decide) (by decide)⟩

/-- C3 counterexample: the bare sentinel `"&stock"` (fewer than five
tokens) makes `parse_query` raise `IndexError` from `query_tokens[2]`, not
the `TypeError` carrying a usage or enumeration message. -/
theorem C3_counterexample_short_command :
    parse_query "&stock" = .error .indexError := by
  decide

/-- C3 amended: for every command string whose stripped space-split token
list has at least five tokens, the parser either returns a fully
constructed request or fails with one of the `InvalidCommand` messages;
commands with fewer tokens can instead fail with an `IndexError` from
token indexing. -/
theorem C3_amended_no_other_failure (q : String)
    (hlen : 5 ≤ (query_tokens q).length) :
    (∃ r, parse_query q = .ok r) ∨ (∃ m, parse_query q = .error (.invalidCommand m)) := by
  cases hp : parse_query q with
  | ok r => exact .inl ⟨r, rfl⟩
  | error e =>
    cases e with
    | invalidCommand m => exact .inr ⟨m, rfl⟩
    | indexError =>
      exfalso
      simp only [parse_query] at hp
      split_ifs at hp <;> try omega
      all_goals try exact ParseError.noConfusion (Except.error.inj hp)
      split at hp
      · exact ParseError.noConfusion (Except.error.inj hp)
      · exact Except.noConfusion hp

/-- Witness for C3 amended at a concrete five-token command. -/
theorem C3_amended_no_other_failure_witness :
    5 ≤ (query_tokens "&stock a zz yy xx").length ∧
      ((∃ r, parse_query "&stock a zz yy xx" = .ok r) ∨
        (∃ m, parse_query "&stock a zz yy xx" = .error (.invalidCommand m))) :=
  ⟨by decide, C3_amended_no_other_failure "&stock a zz yy xx" (by decide)⟩

/-- C4: with the first five tokens valid, one trailing token that fails
integer parsing makes the whole moving-average list rejected with the
invalid-moving-average message — no partial request is produced even when
other trailing tokens are valid integers. -/
theorem C4_one_bad_mav_rejects_all (q : String)
    (h0 : (query_tokens q).getD 0 "" = "&stock")
    (hlen : 5 ≤ (query_tokens q).length)
    (hr : (query_tokens q).getD 2 "" ∈ valid_ranges)
    (hi : (query_tokens q).getD 3 "" ∈ valid_intervals)
    (ht : (query_tokens q).getD 4 "" ∈ valid_types)
    (hbad : ∃ t ∈ (query_tokens q).drop 5, pyInt t = none) :
    parse_query q = .error (.invalidCommand .mavMsg) := by
  have hm : parseMavs ((query_tokens q).drop 5) = none := (parseMavs_eq_none_iff _).2 hbad
  simp only [parse_query]
  rw [if_neg (not_not_intro h0), if_neg (by omega), if_neg (not_not_intro hr),
    if_neg (by omega), if_neg (not_not_intro hi), if_neg (by omega),
    if_neg (not_not_intro ht), hm]

/-- Witness for C4: in `"&stock aapl 1y 1d line 5 x 7"` the tokens `5` and
`7` are valid integers, yet the single bad token `x` rejects the whole
list. -/
theorem C4_one_bad_mav_rejects_all_witness :
    (pyInt "5" = some 5 ∧ pyInt "7" = some 7) ∧
      parse_query "&stock aapl 1y 1d line 5 x 7" = .error (.invalidCommand .mavMsg) :=
  ⟨by decide,
   C4_one_bad_mav_rejects_all "&stock aapl 1y 1d line 5 x 7" (by decide) (by decide)
     (by decide) (by decide) (by decide) ⟨"x", by decide, by decide⟩⟩

/-- C5: with the first five tokens valid and every trailing token an
integer, parsing succeeds; the moving averages are those integers in input
order (duplicates, zero and negative values included), and the ticker
token is taken as-is (upper-cased) with no format check. -/
theorem C5_all_int_mavs_accepted (q : String)
    (h0 : (query_tokens q).getD 0 "" = "&stock")
    (hlen : 5 ≤ (query_tokens q).length)
    (hr : (query_tokens q).getD 2 "" ∈ valid_ranges)
    (hi : (query_tokens q).getD 3 "" ∈ valid_intervals)
    (ht : (query_tokens q).getD 4 "" ∈ valid_types)
    (hall : ∀ t ∈ (query_tokens q).drop 5, (pyInt t).isSome) :
    parse_query q = .ok {
      ticker := py_upper ((query_tokens q).getD 1 "")
      range := (query_tokens q).getD 2 ""
      interval := (query_tokens q).getD 3 ""
      type := (query_tokens q).getD 4 ""
      mav := ((query_tokens q).drop 5).filterMap fun t => pyInt t } := by
  have hm := parseMavs_eq_some_of_all _ hall
  simp only [parse_query]
  rw [if_neg (not_not_intro h0), if_neg (by omega), if_neg (not_not_intro hr),
    if_neg (by omega), if_neg (not_not_intro hi), if_neg (by omega),
    if_neg (not_not_intro ht), hm]

/-- Witness for C5: an arbitrary-format ticker and a trailing list with a
duplicate, a zero and a negative value all pass through. -/
theorem C5_all_int_mavs_accepted_witness :
    parse_query "&stock zz!q 1y 1d line 5 5 0 -3" =
      .ok ⟨"ZZ!Q", "1y", "1d", "line", [5, 5, 0, -3]⟩ :=
  (C5_all_int_mavs_accepted "&stock zz!q 1y 1d line 5 5 0 -3" (by decide) (by decide)
    (by decide) (by decide) (by decide) (by decide)).trans (by decide)

/-- C6 counterexample: a doubled space after the sentinel makes the ticker
token empty, and parsing still succeeds with an empty ticker — the ticker
of a successful parse is not always non-empty. -/
theorem C6_counterexample_empty_ticker :
    parse_query "&stock  1y 1d line" = .ok ⟨"", "1y", "1d", "line", []⟩ := by
  decide

/-- C6 amended: on every successful parse the ticker is the second token
upper-cased; it therefore contains no lowercase letter, but it may be
empty (and may contain non-letter characters). -/
theorem C6_amended_ticker_uppercased (q : String) (r : ChartRequest)
    (h : parse_query q = .ok r) :
    r.ticker = py_upper ((query_tokens q).getD 1 "") ∧
      ∀ c ∈ r.ticker.toList, c.isLower = false := by
  simp only [parse_query] at h
  split_ifs at h
  split at h
  · exact Except.noConfusion h
  · injection h with h
    exact h ▸ ⟨rfl, py_upper_no_lower _⟩

/-- Witness for C6 amended at a concrete command. -/
theorem C6_amended_ticker_uppercased_witness :
    ChartRequest.ticker ⟨"MSFT", "1y", "1d", "line", []⟩ =
        py_upper ((query_tokens "&stock msft 1y 1d line").getD 1 "") ∧
      ∀ c ∈ (ChartRequest.ticker ⟨"MSFT", "1y", "1d", "line", []⟩).toList, c.isLower = false :=
  C6_amended_ticker_uppercased "&stock msft 1y 1d line" ⟨"MSFT", "1y", "1d", "line", []⟩
    (by decide)

/-- C10: tokenization splits the stripped input on single spaces only: a
doubled space yields an empty token occupying a grammar position (so a
command with a doubled space after the sentinel parses with an empty
ticker), while a tab does not separate tokens. -/
theorem C10_single_space_tokenization :
    query_tokens "&stock  5d" = ["&stock", "", "5d"] ∧
      parse_query "&stock  2y 1wk candle" = .ok ⟨"", "2y", "1wk", "candle", []⟩ ∧
      query_tokens "&stock aa\tbb 1y" = ["&stock", "aa\tbb", "1y"] ∧
      parse_query "&stock aa\tbb 1y 1d line" = .ok ⟨"AA\tBB", "1y", "1d", "line", []⟩ :=
  ⟨by decide, by decide, by decide, by decide⟩

@[simp] theorem spec_labels_nil_fst (vs : List α) (i : Nat) :
    spec_labels ([] : List Int) vs i = [] := by
  cases vs <;> rfl

@[simp] theorem spec_labels_nil_snd (ws : List Int) (i : Nat) :
    spec_labels ws ([] : List α) i = [] := by
  cases ws <;> rfl

theorem length_filterMap_getLast (lines : List (MavLine α))
    (hyd : ∀ l ∈ lines, l.ydata ≠ []) :
    (lines.filterMap fun l => l.ydata.getLast?).length = lines.length := by
  induction lines with
  | nil => simp
  | cons l ls ih =>
    obtain ⟨v, hv⟩ := Option.isSome_iff_exists.mp (List.getLast?_isSome.mpr (hyd l (by simp)))
    simp [List.filterMap_cons, hv, ih fun x hx => hyd x (by simp [hx])]

theorem ma_label_loop_line (mav : List Int) (lines : List (MavLine α)) (i : Nat)
    (hlen : i + lines.length = mav.length + 1)
    (hyd : ∀ l ∈ lines, l.ydata ≠ []) :
    ma_label_loop "line" mav (mav.length + 1) lines i =
      .ok (spec_labels (mav.drop i) (lines.filterMap fun l => l.ydata.getLast?) i) := by
  induction lines generalizing i with
  | nil => simp [ma_label_loop]
  | cons l ls ih =>
    obtain ⟨v, hv⟩ := Option.isSome_iff_exists.mp (List.getLast?_isSome.mpr (hyd l (by simp)))
    by_cases hi : i = (mav.length + 1) - 1
    · have hls : ls = [] := by
        apply List.eq_nil_of_length_eq_zero
        simp at hlen
        omega
      subst hls
      have hdrop : mav.drop i = [] := List.drop_eq_nil_of_le (by omega)
      simp only [ma_label_loop, hdrop, spec_labels_nil_fst]
      rw [if_pos]
      exact ⟨trivial, hi⟩
    · have hcond : ¬("line" = "line" ∧ i = (mav.length + 1) - 1) := fun hc => hi hc.2
      have hilt : i < mav.length := by
        simp at hlen
        omega
      rw [ma_label_loop, if_neg hcond, List.getElem?_eq_getElem hilt, hv,
        ih (i + 1) (by simp at hlen ⊢; omega) fun x hx => hyd x (by simp [hx])]
      simp only [List.filterMap_cons, hv]
      rw [List.drop_eq_getElem_cons hilt]
      simp only [spec_labels]

/-- C9: rendering a line chart whose request has a non-empty
moving-average list of length `n` over an axis carrying `n + 1` line
objects (the `n` moving-average lines followed by the price line) emits
exactly `n` labels: the `i`-th label pairs window `mav[i]` with the latest
y-value of line `i` and the palette color at index `i` modulo the palette
length, and the trailing price line gets no label. -/
theorem C9_line_chart_labels (α : Type) (req : ChartRequest) (lines : List (MavLine α))
    (hty : req.type = "line") (hne : req.mav ≠ [])
    (hlen : lines.length = req.mav.length + 1)
    (hyd : ∀ l ∈ lines, l.ydata ≠ []) :
    create_chart_labels req lines =
        .ok (spec_labels req.mav (lines.filterMap fun l => l.ydata.getLast?) 0) ∧
      (spec_labels req.mav (lines.filterMap fun l => l.ydata.getLast?) 0).length =
        req.mav.length := by
  constructor
  · unfold create_chart_labels
    rw [if_neg (by simp [hne]), hty, hlen]
    simpa using ma_label_loop_line req.mav lines 0 (by omega) hyd
  · rw [spec_labels_length, length_filterMap_getLast lines hyd, hlen]
    omega

/-- Witness for C9 at the spec's example: moving averages `(5, 10)` on a
line chart with three line objects yield exactly the two labels `MA5` and
`MA10`. -/
theorem C9_line_chart_labels_witness :
    (create_chart_labels (α := Int) ⟨"SPY", "2y", "1wk", "line", [5, 10]⟩
          [⟨[1, 2]⟩, ⟨[3]⟩, ⟨[4, 9]⟩] =
        .ok (spec_labels [5, 10]
          ([⟨[1, 2]⟩, ⟨[3]⟩, ⟨[4, 9]⟩].filterMap fun l : MavLine Int => l.ydata.getLast?) 0) ∧
      (spec_labels [5, 10]
          ([⟨[1, 2]⟩, ⟨[3]⟩, ⟨[4, 9]⟩].filterMap fun l : MavLine Int => l.ydata.getLast?)
          0).length = ([5, 10] : List Int).length) :=
  C9_line_chart_labels Int ⟨"SPY", "2y", "1wk", "line", [5, 10]⟩ [⟨[1, 2]⟩, ⟨[3]⟩, ⟨[4, 9]⟩]
    rfl (by decide) (by decide) (by decide)

end DiscordStocks
